import Mathlib

/-!
Verification of the mos6502 CPU emulator core (run6502).

The definitions below are a shallow embedding of the C++ source
`src/main.cpp` (struct `mos6502`).  Machine integers are modelled as
`Nat` with explicit reductions: `uint8_t` values are kept below 256 by
masking at every assignment point where the C++ type system truncates,
`uint16_t` values below 65536 likewise, and the one `unsigned int`
temporary (in `Op_ADC`/`Op_SBC`) is 32-bit, reduced modulo 2^32 where
the C++ computation can wrap.  The host bus of `main.cpp` (a flat
64 KiB byte array) is modelled as a function `Nat → Nat` inside the
state; `busRead`/`busWrite` apply the address and data masks that the
`uint16_t`/`uint8_t` callback signatures impose.

The C++ `Op_RTS` contains a host-exit path (a diagnostic dump via
`puts`/`printf` followed by `exit(1)`) taken when the stack pointer
equals 0xFF after its two pops.  That observable effect is modelled by
the `exited` flag of the state: `exited = true` means the process
printed the dump and terminated.  No other operation touches the flag.
-/

namespace M6502

/-- Architectural CPU state of `struct mos6502` plus the host memory
array and the `exited` flag modelling the `exit(1)` path of `Op_RTS`. -/
structure State where
  A : Nat
  X : Nat
  Y : Nat
  sp : Nat
  pc : Nat
  status : Nat
  illegalOpcode : Bool
  exited : Bool
  mem : Nat → Nat

/-- Flag mask NEGATIVE = 0x80 (bit 7, N). -/
def NEGATIVE : Nat := 0x80
/-- Flag mask OVERFLOW = 0x40 (bit 6, V). -/
def OVERFLOW : Nat := 0x40
/-- Flag mask CONSTANT = 0x20 (bit 5, U). -/
def CONSTANT : Nat := 0x20
/-- Flag mask BREAK = 0x10 (bit 4, B). -/
def BREAK : Nat := 0x10
/-- Flag mask DECIMAL = 0x08 (bit 3, D). -/
def DECIMAL : Nat := 0x08
/-- Flag mask INTERRUPT = 0x04 (bit 2, I). -/
def INTERRUPT : Nat := 0x04
/-- Flag mask ZERO = 0x02 (bit 1, Z). -/
def ZERO : Nat := 0x02
/-- Flag mask CARRY = 0x01 (bit 0, C). -/
def CARRY : Nat := 0x01

/-- The host `Read` callback: `memory[i]` with a `uint16_t` address and
`uint8_t` result. -/
def busRead (s : State) (a : Nat) : Nat :=
  s.mem (a % 65536) % 256

/-- The host `Write` callback: `memory[i] = data`. -/
def busWrite (s : State) (a v : Nat) : State :=
  { s with mem := fun i => if i = a % 65536 then v % 256 else s.mem i }

/-- The `SET_*(x)` macro family: `x ? (status |= mask) : (status &= ~mask)`
acting on the 8-bit status register. -/
def setFlag (mask : Nat) (b : Bool) (st : Nat) : Nat :=
  if b then st ||| mask else st &&& (255 ^^^ mask)

/-- The `IF_*()` macro family: `(status & mask) ? true : false`. -/
def ifFlag (mask : Nat) (s : State) : Bool :=
  decide (s.status &&& mask ≠ 0)

/-- Replace the status register of a state. -/
def withStatus (s : State) (st : Nat) : State :=
  { s with status := st }

/-- `StackPush`: write at `0x0100 + sp`, then decrement `sp` with wrap
from 0x00 to 0xFF. -/
def stackPush (s : State) (v : Nat) : State :=
  let s1 := busWrite s (0x100 + s.sp) v
  { s1 with sp := if s.sp = 0 then 0xFF else s.sp - 1 }

/-- `StackPop`: increment `sp` with wrap from 0xFF to 0x00, then read at
`0x0100 + sp`; returns the new state and the byte read. -/
def stackPop (s : State) : State × Nat :=
  let sp1 := if s.sp = 0xFF then 0 else s.sp + 1
  ({ s with sp := sp1 }, busRead s (0x100 + sp1))

/-- `Reset(start)`: seed the reset vector with `start`, clear A, X, Y,
load PC from the reset vector, set SP to 0xFD, force the U bit of the
status register, and clear the illegal-opcode flag. -/
def reset (s : State) (start : Nat) : State :=
  let s1 := busWrite s 0xFFFD (start >>> 8)
  let s2 := busWrite s1 0xFFFC (start &&& 0xFF)
  let s3 := { s2 with A := 0, Y := 0, X := 0 }
  let s4 := { s3 with pc := (busRead s3 0xFFFD <<< 8) + busRead s3 0xFFFC }
  { s4 with sp := 0xFD, status := s4.status ||| CONSTANT, illegalOpcode := false }

/-- `IRQ()`: if the I flag is clear, clear B, push PC high, PC low and
the status register, set I, and load PC from the IRQ vector at
0xFFFE/0xFFFF; otherwise do nothing. -/
def irq (s : State) : State :=
  if ifFlag INTERRUPT s then s
  else
    let s1 := withStatus s (setFlag BREAK false s.status)
    let s2 := stackPush s1 ((s1.pc >>> 8) &&& 0xFF)
    let s3 := stackPush s2 (s2.pc &&& 0xFF)
    let s4 := stackPush s3 s3.status
    let s5 := withStatus s4 (setFlag INTERRUPT true s4.status)
    { s5 with pc := (busRead s5 0xFFFF <<< 8) + busRead s5 0xFFFE }

/-- `NMI()`: unconditional interrupt entry through the NMI vector at
0xFFFA/0xFFFB. -/
def nmi (s : State) : State :=
  let s1 := withStatus s (setFlag BREAK false s.status)
  let s2 := stackPush s1 ((s1.pc >>> 8) &&& 0xFF)
  let s3 := stackPush s2 (s2.pc &&& 0xFF)
  let s4 := stackPush s3 s3.status
  let s5 := withStatus s4 (setFlag INTERRUPT true s4.status)
  { s5 with pc := (busRead s5 0xFFFB <<< 8) + busRead s5 0xFFFA }

/-! ### Addressing-mode resolvers

Each resolver consumes its operand bytes at PC (advancing PC modulo
2^16, as the `uint16_t pc` does) and returns the updated state together
with the source address. -/

/-- `Addr_ACC`: no operand, returns the unused value 0. -/
def Addr_ACC (s : State) : State × Nat := (s, 0)

/-- `Addr_IMP`: no operand, returns the unused value 0. -/
def Addr_IMP (s : State) : State × Nat := (s, 0)

/-- `Addr_IMM`: `return pc++`: the address of the operand byte itself. -/
def Addr_IMM (s : State) : State × Nat :=
  ({ s with pc := (s.pc + 1) % 65536 }, s.pc % 65536)

/-- `Addr_ABS`: two operand bytes, little-endian absolute address. -/
def Addr_ABS (s : State) : State × Nat :=
  let addrL := busRead s s.pc
  let s1 := { s with pc := (s.pc + 1) % 65536 }
  let addrH := busRead s1 s1.pc
  let s2 := { s1 with pc := (s1.pc + 1) % 65536 }
  (s2, addrL + (addrH <<< 8))

/-- `Addr_ZER`: one operand byte, zero-page address. -/
def Addr_ZER (s : State) : State × Nat :=
  ({ s with pc := (s.pc + 1) % 65536 }, busRead s s.pc)

/-- `Addr_REL`: one operand byte, sign-extended to 16 bits and added to
the PC after the operand (16-bit wraparound). -/
def Addr_REL (s : State) : State × Nat :=
  let offset0 := busRead s s.pc
  let s1 := { s with pc := (s.pc + 1) % 65536 }
  let offset := if offset0 &&& 0x80 ≠ 0 then offset0 ||| 0xFF00 else offset0
  (s1, (s1.pc + offset) % 65536)

/-- `Addr_ABI`: two operand bytes forming a pointer `abs`; the effective
address low byte is read at `abs` and the high byte at
`(abs & 0xFF00) + ((abs + 1) & 0x00FF)` (the NMOS page-boundary bug;
the `CMOS_INDIRECT_JMP_FIX` macro is not defined in this build). -/
def Addr_ABI (s : State) : State × Nat :=
  let addrL := busRead s s.pc
  let s1 := { s with pc := (s.pc + 1) % 65536 }
  let addrH := busRead s1 s1.pc
  let s2 := { s1 with pc := (s1.pc + 1) % 65536 }
  let abs := (addrH <<< 8) ||| addrL
  let effL := busRead s2 abs
  let effH := busRead s2 ((abs &&& 0xFF00) + ((abs + 1) &&& 0x00FF))
  (s2, effL + 0x100 * effH)

/-- `Addr_ZEX`: zero-page indexed by X, wrapping at 256. -/
def Addr_ZEX (s : State) : State × Nat :=
  ({ s with pc := (s.pc + 1) % 65536 }, (busRead s s.pc + s.X) % 256)

/-- `Addr_ZEY`: zero-page indexed by Y, wrapping at 256. -/
def Addr_ZEY (s : State) : State × Nat :=
  ({ s with pc := (s.pc + 1) % 65536 }, (busRead s s.pc + s.Y) % 256)

/-- `Addr_ABX`: absolute indexed by X (16-bit wraparound). -/
def Addr_ABX (s : State) : State × Nat :=
  let addrL := busRead s s.pc
  let s1 := { s with pc := (s.pc + 1) % 65536 }
  let addrH := busRead s1 s1.pc
  let s2 := { s1 with pc := (s1.pc + 1) % 65536 }
  (s2, (addrL + (addrH <<< 8) + s.X) % 65536)

/-- `Addr_ABY`: absolute indexed by Y (16-bit wraparound). -/
def Addr_ABY (s : State) : State × Nat :=
  let addrL := busRead s s.pc
  let s1 := { s with pc := (s.pc + 1) % 65536 }
  let addrH := busRead s1 s1.pc
  let s2 := { s1 with pc := (s1.pc + 1) % 65536 }
  (s2, (addrL + (addrH <<< 8) + s.Y) % 65536)

/-- `Addr_INX`: indexed-indirect; zero-page pointer at `(op0 + X) % 256`,
high byte at the following zero-page address. -/
def Addr_INX (s : State) : State × Nat :=
  let zeroL := (busRead s s.pc + s.X) % 256
  let s1 := { s with pc := (s.pc + 1) % 65536 }
  let zeroH := (zeroL + 1) % 256
  (s1, busRead s1 zeroL + (busRead s1 zeroH <<< 8))

/-- `Addr_INY`: indirect-indexed; zero-page pointer at `op0`, high byte
at `(op0 + 1) % 256`, then Y added with 16-bit wraparound. -/
def Addr_INY (s : State) : State × Nat :=
  let zeroL := busRead s s.pc
  let s1 := { s with pc := (s.pc + 1) % 65536 }
  let zeroH := (zeroL + 1) % 256
  (s1, (busRead s1 zeroL + (busRead s1 zeroH <<< 8) + s.Y) % 65536)

/-! ### Operation semantics

Each operation takes the source address produced by the resolver and
the current state.  Sequencing of the `SET_*` macro calls follows the
C++ text exactly. -/

/-- `Op_ILLEGAL`: raise the illegal-opcode flag. -/
def Op_ILLEGAL (_src : Nat) (s : State) : State :=
  { s with illegalOpcode := true }

/-- `Op_ADC`: add memory and carry to A with the decimal-mode branch;
the temporary is the C++ `unsigned int tmp` (never wraps here, since
`m + A + 1 < 2^32`). -/
def Op_ADC (src : Nat) (s : State) : State :=
  let m := busRead s src
  let tmp := m + s.A + (if ifFlag CARRY s then 1 else 0)
  let s1 := withStatus s (setFlag ZERO (decide (tmp &&& 0xFF = 0)) s.status)
  if ifFlag DECIMAL s1 then
    let tmp1 := if (s.A &&& 0xF) + (m &&& 0xF) + (if ifFlag CARRY s1 then 1 else 0) > 9
                then tmp + 6 else tmp
    let s2 := withStatus s1 (setFlag NEGATIVE (decide (tmp1 &&& 0x80 ≠ 0)) s1.status)
    let s3 := withStatus s2 (setFlag OVERFLOW
      (decide ((s.A ^^^ m) &&& 0x80 = 0) && decide ((s.A ^^^ tmp1) &&& 0x80 ≠ 0)) s2.status)
    let tmp2 := if tmp1 > 0x99 then tmp1 + 96 else tmp1
    let s4 := withStatus s3 (setFlag CARRY (decide (tmp2 > 0x99)) s3.status)
    { s4 with A := tmp2 &&& 0xFF }
  else
    let s2 := withStatus s1 (setFlag NEGATIVE (decide (tmp &&& 0x80 ≠ 0)) s1.status)
    let s3 := withStatus s2 (setFlag OVERFLOW
      (decide ((s.A ^^^ m) &&& 0x80 = 0) && decide ((s.A ^^^ tmp) &&& 0x80 ≠ 0)) s2.status)
    let s4 := withStatus s3 (setFlag CARRY (decide (tmp > 0xFF)) s3.status)
    { s4 with A := tmp &&& 0xFF }

/-- `Op_AND`: A and memory, N and Z from the result. -/
def Op_AND (src : Nat) (s : State) : State :=
  let m := busRead s src
  let res := m &&& s.A
  let s1 := withStatus s (setFlag NEGATIVE (decide (res &&& 0x80 ≠ 0)) s.status)
  let s2 := withStatus s1 (setFlag ZERO (decide (res = 0)) s1.status)
  { s2 with A := res }

/-- `Op_ASL`: shift memory left, carry from bit 7 (the `uint8_t m`
truncates the shift to 8 bits). -/
def Op_ASL (src : Nat) (s : State) : State :=
  let m := busRead s src
  let s1 := withStatus s (setFlag CARRY (decide (m &&& 0x80 ≠ 0)) s.status)
  let m1 := (m <<< 1) % 256
  let s2 := withStatus s1 (setFlag NEGATIVE (decide (m1 &&& 0x80 ≠ 0)) s1.status)
  let s3 := withStatus s2 (setFlag ZERO (decide (m1 = 0)) s2.status)
  busWrite s3 src m1

/-- `Op_ASL_ACC`: shift the accumulator left. -/
def Op_ASL_ACC (_src : Nat) (s : State) : State :=
  let m := s.A
  let s1 := withStatus s (setFlag CARRY (decide (m &&& 0x80 ≠ 0)) s.status)
  let m1 := (m <<< 1) % 256
  let s2 := withStatus s1 (setFlag NEGATIVE (decide (m1 &&& 0x80 ≠ 0)) s1.status)
  let s3 := withStatus s2 (setFlag ZERO (decide (m1 = 0)) s2.status)
  { s3 with A := m1 }

/-- `Op_BCC`: branch when the carry flag is clear. -/
def Op_BCC (src : Nat) (s : State) : State :=
  if ifFlag CARRY s then s else { s with pc := src % 65536 }

/-- `Op_BCS`: branch when the carry flag is set. -/
def Op_BCS (src : Nat) (s : State) : State :=
  if ifFlag CARRY s then { s with pc := src % 65536 } else s

/-- `Op_BEQ`: branch when the zero flag is set. -/
def Op_BEQ (src : Nat) (s : State) : State :=
  if ifFlag ZERO s then { s with pc := src % 65536 } else s

/-- `Op_BIT`: Z from `A & m`, N and V copied from bits 7 and 6 of `m`. -/
def Op_BIT (src : Nat) (s : State) : State :=
  let m := busRead s src
  let res := m &&& s.A
  let s1 := withStatus s (setFlag NEGATIVE (decide (res &&& 0x80 ≠ 0)) s.status)
  let s2 := withStatus s1 ((s1.status &&& 0x3F) ||| (m &&& 0xC0))
  withStatus s2 (setFlag ZERO (decide (res = 0)) s2.status)

/-- `Op_BMI`: branch when the negative flag is set. -/
def Op_BMI (src : Nat) (s : State) : State :=
  if ifFlag NEGATIVE s then { s with pc := src % 65536 } else s

/-- `Op_BNE`: branch when the zero flag is clear. -/
def Op_BNE (src : Nat) (s : State) : State :=
  if ifFlag ZERO s then s else { s with pc := src % 65536 }

/-- `Op_BPL`: branch when the negative flag is clear. -/
def Op_BPL (src : Nat) (s : State) : State :=
  if ifFlag NEGATIVE s then s else { s with pc := src % 65536 }

/-- `Op_BRK`: increment PC, push PC high, PC low and `status | BREAK`,
set I, and load PC from the IRQ vector. -/
def Op_BRK (_src : Nat) (s : State) : State :=
  let s1 := { s with pc := (s.pc + 1) % 65536 }
  let s2 := stackPush s1 ((s1.pc >>> 8) &&& 0xFF)
  let s3 := stackPush s2 (s2.pc &&& 0xFF)
  let s4 := stackPush s3 (s3.status ||| BREAK)
  let s5 := withStatus s4 (setFlag INTERRUPT true s4.status)
  { s5 with pc := (busRead s5 0xFFFF <<< 8) + busRead s5 0xFFFE }

/-- `Op_BVC`: branch when the overflow flag is clear. -/
def Op_BVC (src : Nat) (s : State) : State :=
  if ifFlag OVERFLOW s then s else { s with pc := src % 65536 }

/-- `Op_BVS`: branch when the overflow flag is set. -/
def Op_BVS (src : Nat) (s : State) : State :=
  if ifFlag OVERFLOW s then { s with pc := src % 65536 } else s

/-- `Op_CLC`: clear the carry flag. -/
def Op_CLC (_src : Nat) (s : State) : State :=
  withStatus s (setFlag CARRY false s.status)

/-- `Op_CLD`: clear the decimal flag. -/
def Op_CLD (_src : Nat) (s : State) : State :=
  withStatus s (setFlag DECIMAL false s.status)

/-- `Op_CLI`: clear the interrupt-disable flag. -/
def Op_CLI (_src : Nat) (s : State) : State :=
  withStatus s (setFlag INTERRUPT false s.status)

/-- `Op_CLV`: clear the overflow flag. -/
def Op_CLV (_src : Nat) (s : State) : State :=
  withStatus s (setFlag OVERFLOW false s.status)

/-- `Op_CMP`: compare A with memory through the wrapping `unsigned int`
difference `A - m`. -/
def Op_CMP (src : Nat) (s : State) : State :=
  let tmp := (s.A + 4294967296 - busRead s src) % 4294967296
  let s1 := withStatus s (setFlag CARRY (decide (tmp < 0x100)) s.status)
  let s2 := withStatus s1 (setFlag NEGATIVE (decide (tmp &&& 0x80 ≠ 0)) s1.status)
  withStatus s2 (setFlag ZERO (decide (tmp &&& 0xFF = 0)) s2.status)

/-- `Op_CPX`: compare X with memory. -/
def Op_CPX (src : Nat) (s : State) : State :=
  let tmp := (s.X + 4294967296 - busRead s src) % 4294967296
  let s1 := withStatus s (setFlag CARRY (decide (tmp < 0x100)) s.status)
  let s2 := withStatus s1 (setFlag NEGATIVE (decide (tmp &&& 0x80 ≠ 0)) s1.status)
  withStatus s2 (setFlag ZERO (decide (tmp &&& 0xFF = 0)) s2.status)

/-- `Op_CPY`: compare Y with memory. -/
def Op_CPY (src : Nat) (s : State) : State :=
  let tmp := (s.Y + 4294967296 - busRead s src) % 4294967296
  let s1 := withStatus s (setFlag CARRY (decide (tmp < 0x100)) s.status)
  let s2 := withStatus s1 (setFlag NEGATIVE (decide (tmp &&& 0x80 ≠ 0)) s1.status)
  withStatus s2 (setFlag ZERO (decide (tmp &&& 0xFF = 0)) s2.status)

/-- `Op_DEC`: decrement memory modulo 256 (`uint8_t` wrap of `m - 1`). -/
def Op_DEC (src : Nat) (s : State) : State :=
  let m := busRead s src
  let m1 := (m + 255) % 256
  let s1 := withStatus s (setFlag NEGATIVE (decide (m1 &&& 0x80 ≠ 0)) s.status)
  let s2 := withStatus s1 (setFlag ZERO (decide (m1 = 0)) s1.status)
  busWrite s2 src m1

/-- `Op_DEX`: decrement X modulo 256. -/
def Op_DEX (_src : Nat) (s : State) : State :=
  let m1 := (s.X + 255) % 256
  let s1 := withStatus s (setFlag NEGATIVE (decide (m1 &&& 0x80 ≠ 0)) s.status)
  let s2 := withStatus s1 (setFlag ZERO (decide (m1 = 0)) s1.status)
  { s2 with X := m1 }

/-- `Op_DEY`: decrement Y modulo 256. -/
def Op_DEY (_src : Nat) (s : State) : State :=
  let m1 := (s.Y + 255) % 256
  let s1 := withStatus s (setFlag NEGATIVE (decide (m1 &&& 0x80 ≠ 0)) s.status)
  let s2 := withStatus s1 (setFlag ZERO (decide (m1 = 0)) s1.status)
  { s2 with Y := m1 }

/-- `Op_EOR`: exclusive-or A with memory, N and Z from the result. -/
def Op_EOR (src : Nat) (s : State) : State :=
  let m := s.A ^^^ busRead s src
  let s1 := withStatus s (setFlag NEGATIVE (decide (m &&& 0x80 ≠ 0)) s.status)
  let s2 := withStatus s1 (setFlag ZERO (decide (m = 0)) s1.status)
  { s2 with A := m }

/-- `Op_INC`: increment memory modulo 256. -/
def Op_INC (src : Nat) (s : State) : State :=
  let m := busRead s src
  let m1 := (m + 1) % 256
  let s1 := withStatus s (setFlag NEGATIVE (decide (m1 &&& 0x80 ≠ 0)) s.status)
  let s2 := withStatus s1 (setFlag ZERO (decide (m1 = 0)) s1.status)
  busWrite s2 src m1

/-- `Op_INX`: increment X modulo 256. -/
def Op_INX (_src : Nat) (s : State) : State :=
  let m1 := (s.X + 1) % 256
  let s1 := withStatus s (setFlag NEGATIVE (decide (m1 &&& 0x80 ≠ 0)) s.status)
  let s2 := withStatus s1 (setFlag ZERO (decide (m1 = 0)) s1.status)
  { s2 with X := m1 }

/-- `Op_INY`: increment Y modulo 256. -/
def Op_INY (_src : Nat) (s : State) : State :=
  let m1 := (s.Y + 1) % 256
  let s1 := withStatus s (setFlag NEGATIVE (decide (m1 &&& 0x80 ≠ 0)) s.status)
  let s2 := withStatus s1 (setFlag ZERO (decide (m1 = 0)) s1.status)
  { s2 with Y := m1 }

/-- `Op_JMP`: load PC with the effective address. -/
def Op_JMP (src : Nat) (s : State) : State :=
  { s with pc := src % 65536 }

/-- `Op_JSR`: decrement PC (16-bit wrap), push PC high then low, and
jump to the target. -/
def Op_JSR (src : Nat) (s : State) : State :=
  let s1 := { s with pc := (s.pc + 65535) % 65536 }
  let s2 := stackPush s1 ((s1.pc >>> 8) &&& 0xFF)
  let s3 := stackPush s2 (s2.pc &&& 0xFF)
  { s3 with pc := src % 65536 }

/-- `Op_LDA`: load A from memory, N and Z from the value. -/
def Op_LDA (src : Nat) (s : State) : State :=
  let m := busRead s src
  let s1 := withStatus s (setFlag NEGATIVE (decide (m &&& 0x80 ≠ 0)) s.status)
  let s2 := withStatus s1 (setFlag ZERO (decide (m = 0)) s1.status)
  { s2 with A := m }

/-- `Op_LDX`: load X from memory. -/
def Op_LDX (src : Nat) (s : State) : State :=
  let m := busRead s src
  let s1 := withStatus s (setFlag NEGATIVE (decide (m &&& 0x80 ≠ 0)) s.status)
  let s2 := withStatus s1 (setFlag ZERO (decide (m = 0)) s1.status)
  { s2 with X := m }

/-- `Op_LDY`: load Y from memory. -/
def Op_LDY (src : Nat) (s : State) : State :=
  let m := busRead s src
  let s1 := withStatus s (setFlag NEGATIVE (decide (m &&& 0x80 ≠ 0)) s.status)
  let s2 := withStatus s1 (setFlag ZERO (decide (m = 0)) s1.status)
  { s2 with Y := m }

/-- `Op_LSR`: logical shift right of memory; N cleared. -/
def Op_LSR (src : Nat) (s : State) : State :=
  let m := busRead s src
  let s1 := withStatus s (setFlag CARRY (decide (m &&& 0x01 ≠ 0)) s.status)
  let m1 := m >>> 1
  let s2 := withStatus s1 (setFlag NEGATIVE false s1.status)
  let s3 := withStatus s2 (setFlag ZERO (decide (m1 = 0)) s2.status)
  busWrite s3 src m1

/-- `Op_LSR_ACC`: logical shift right of the accumulator. -/
def Op_LSR_ACC (_src : Nat) (s : State) : State :=
  let m := s.A
  let s1 := withStatus s (setFlag CARRY (decide (m &&& 0x01 ≠ 0)) s.status)
  let m1 := m >>> 1
  let s2 := withStatus s1 (setFlag NEGATIVE false s1.status)
  let s3 := withStatus s2 (setFlag ZERO (decide (m1 = 0)) s2.status)
  { s3 with A := m1 }

/-- `Op_NOP`: no effect. -/
def Op_NOP (_src : Nat) (s : State) : State := s

/-- `Op_ORA`: inclusive-or A with memory. -/
def Op_ORA (src : Nat) (s : State) : State :=
  let m := s.A ||| busRead s src
  let s1 := withStatus s (setFlag NEGATIVE (decide (m &&& 0x80 ≠ 0)) s.status)
  let s2 := withStatus s1 (setFlag ZERO (decide (m = 0)) s1.status)
  { s2 with A := m }

/-- `Op_PHA`: push the accumulator. -/
def Op_PHA (_src : Nat) (s : State) : State :=
  stackPush s s.A

/-- `Op_PHP`: push `status | BREAK`. -/
def Op_PHP (_src : Nat) (s : State) : State :=
  stackPush s (s.status ||| BREAK)

/-- `Op_PLA`: pop into A, N and Z from the value. -/
def Op_PLA (_src : Nat) (s : State) : State :=
  let p := stackPop s
  let s1 := { p.1 with A := p.2 }
  let s2 := withStatus s1 (setFlag NEGATIVE (decide (s1.A &&& 0x80 ≠ 0)) s1.status)
  withStatus s2 (setFlag ZERO (decide (s2.A = 0)) s2.status)

/-- `Op_PLP`: pop into the status register and force the U bit. -/
def Op_PLP (_src : Nat) (s : State) : State :=
  let p := stackPop s
  let s1 := withStatus p.1 p.2
  withStatus s1 (setFlag CONSTANT true s1.status)

/-- `Op_ROL`: rotate memory left through carry (`uint16_t m`). -/
def Op_ROL (src : Nat) (s : State) : State :=
  let m := busRead s src
  let m1 := (m <<< 1) % 65536
  let m2 := if ifFlag CARRY s then m1 ||| 0x01 else m1
  let s1 := withStatus s (setFlag CARRY (decide (m2 > 0xFF)) s.status)
  let m3 := m2 &&& 0xFF
  let s2 := withStatus s1 (setFlag NEGATIVE (decide (m3 &&& 0x80 ≠ 0)) s1.status)
  let s3 := withStatus s2 (setFlag ZERO (decide (m3 = 0)) s2.status)
  busWrite s3 src m3

/-- `Op_ROL_ACC`: rotate the accumulator left through carry. -/
def Op_ROL_ACC (_src : Nat) (s : State) : State :=
  let m := s.A
  let m1 := (m <<< 1) % 65536
  let m2 := if ifFlag CARRY s then m1 ||| 0x01 else m1
  let s1 := withStatus s (setFlag CARRY (decide (m2 > 0xFF)) s.status)
  let m3 := m2 &&& 0xFF
  let s2 := withStatus s1 (setFlag NEGATIVE (decide (m3 &&& 0x80 ≠ 0)) s1.status)
  let s3 := withStatus s2 (setFlag ZERO (decide (m3 = 0)) s2.status)
  { s3 with A := m3 }

/-- `Op_ROR`: rotate memory right through carry (`uint16_t m`). -/
def Op_ROR (src : Nat) (s : State) : State :=
  let m := busRead s src
  let m1 := if ifFlag CARRY s then m ||| 0x100 else m
  let s1 := withStatus s (setFlag CARRY (decide (m1 &&& 0x01 ≠ 0)) s.status)
  let m2 := (m1 >>> 1) &&& 0xFF
  let s2 := withStatus s1 (setFlag NEGATIVE (decide (m2 &&& 0x80 ≠ 0)) s1.status)
  let s3 := withStatus s2 (setFlag ZERO (decide (m2 = 0)) s2.status)
  busWrite s3 src m2

/-- `Op_ROR_ACC`: rotate the accumulator right through carry. -/
def Op_ROR_ACC (_src : Nat) (s : State) : State :=
  let m := s.A
  let m1 := if ifFlag CARRY s then m ||| 0x100 else m
  let s1 := withStatus s (setFlag CARRY (decide (m1 &&& 0x01 ≠ 0)) s.status)
  let m2 := (m1 >>> 1) &&& 0xFF
  let s2 := withStatus s1 (setFlag NEGATIVE (decide (m2 &&& 0x80 ≠ 0)) s1.status)
  let s3 := withStatus s2 (setFlag ZERO (decide (m2 = 0)) s2.status)
  { s3 with A := m2 }

/-- `Op_RTI`: pop the status register (no U forcing), then pop PC low
and PC high; PC gets their combination with no increment. -/
def Op_RTI (_src : Nat) (s : State) : State :=
  let p0 := stackPop s
  let s1 := withStatus p0.1 p0.2
  let p1 := stackPop s1
  let p2 := stackPop p1.1
  { p2.1 with pc := ((p2.2 <<< 8) ||| p1.2) % 65536 }

/-- `Op_RTS`: pop PC low and high; if SP then equals 0xFF the process
prints a dump and calls `exit(1)` (modelled by `exited := true`),
otherwise PC gets the popped address plus one. -/
def Op_RTS (_src : Nat) (s : State) : State :=
  let p1 := stackPop s
  let p2 := stackPop p1.1
  if p2.1.sp = 0xFF then { p2.1 with exited := true }
  else { p2.1 with pc := (((p2.2 <<< 8) ||| p1.2) + 1) % 65536 }

/-- `Op_SBC`: subtract memory and borrow from A through the wrapping
`unsigned int` difference, with the decimal-mode adjustment. -/
def Op_SBC (src : Nat) (s : State) : State :=
  let m := busRead s src
  let tmp := (s.A + 4294967296 - m - (if ifFlag CARRY s then 0 else 1)) % 4294967296
  let s1 := withStatus s (setFlag NEGATIVE (decide (tmp &&& 0x80 ≠ 0)) s.status)
  let s2 := withStatus s1 (setFlag ZERO (decide (tmp &&& 0xFF = 0)) s1.status)
  let s3 := withStatus s2 (setFlag OVERFLOW
    (decide ((s.A ^^^ tmp) &&& 0x80 ≠ 0) && decide ((s.A ^^^ m) &&& 0x80 ≠ 0)) s2.status)
  let tmp2 :=
    if ifFlag DECIMAL s3 then
      let tmp1 := if (((s.A &&& 0x0F : Nat) : Int) - (if ifFlag CARRY s3 then 0 else 1)
                      < ((m &&& 0x0F : Nat) : Int))
                  then (tmp + 4294967296 - 6) % 4294967296 else tmp
      if tmp1 > 0x99 then (tmp1 + 4294967296 - 0x60) % 4294967296 else tmp1
    else tmp
  let s4 := withStatus s3 (setFlag CARRY (decide (tmp2 < 0x100)) s3.status)
  { s4 with A := tmp2 &&& 0xFF }

/-- `Op_SEC`: set the carry flag. -/
def Op_SEC (_src : Nat) (s : State) : State :=
  withStatus s (setFlag CARRY true s.status)

/-- `Op_SED`: set the decimal flag. -/
def Op_SED (_src : Nat) (s : State) : State :=
  withStatus s (setFlag DECIMAL true s.status)

/-- `Op_SEI`: set the interrupt-disable flag. -/
def Op_SEI (_src : Nat) (s : State) : State :=
  withStatus s (setFlag INTERRUPT true s.status)

/-- `Op_STA`: store A; no flag changes. -/
def Op_STA (src : Nat) (s : State) : State :=
  busWrite s src s.A

/-- `Op_STX`: store X; no flag changes. -/
def Op_STX (src : Nat) (s : State) : State :=
  busWrite s src s.X

/-- `Op_STY`: store Y; no flag changes. -/
def Op_STY (src : Nat) (s : State) : State :=
  busWrite s src s.Y

/-- `Op_TAX`: transfer A to X, N and Z from the value. -/
def Op_TAX (_src : Nat) (s : State) : State :=
  let m := s.A
  let s1 := withStatus s (setFlag NEGATIVE (decide (m &&& 0x80 ≠ 0)) s.status)
  let s2 := withStatus s1 (setFlag ZERO (decide (m = 0)) s1.status)
  { s2 with X := m }

/-- `Op_TAY`: transfer A to Y. -/
def Op_TAY (_src : Nat) (s : State) : State :=
  let m := s.A
  let s1 := withStatus s (setFlag NEGATIVE (decide (m &&& 0x80 ≠ 0)) s.status)
  let s2 := withStatus s1 (setFlag ZERO (decide (m = 0)) s1.status)
  { s2 with Y := m }

/-- `Op_TSX`: transfer SP to X. -/
def Op_TSX (_src : Nat) (s : State) : State :=
  let m := s.sp
  let s1 := withStatus s (setFlag NEGATIVE (decide (m &&& 0x80 ≠ 0)) s.status)
  let s2 := withStatus s1 (setFlag ZERO (decide (m = 0)) s1.status)
  { s2 with X := m }

/-- `Op_TXA`: transfer X to A. -/
def Op_TXA (_src : Nat) (s : State) : State :=
  let m := s.X
  let s1 := withStatus s (setFlag NEGATIVE (decide (m &&& 0x80 ≠ 0)) s.status)
  let s2 := withStatus s1 (setFlag ZERO (decide (m = 0)) s1.status)
  { s2 with A := m }

/-- `Op_TXS`: transfer X to SP; no flag changes. -/
def Op_TXS (_src : Nat) (s : State) : State :=
  { s with sp := s.X }

/-- `Op_TYA`: transfer Y to A. -/
def Op_TYA (_src : Nat) (s : State) : State :=
  let m := s.Y
  let s1 := withStatus s (setFlag NEGATIVE (decide (m &&& 0x80 ≠ 0)) s.status)
  let s2 := withStatus s1 (setFlag ZERO (decide (m = 0)) s1.status)
  { s2 with A := m }

/-! ### Dispatch table and run loop -/

/-- Addressing-mode tags, one per `Addr_*` member function. -/
inductive Mode where
  | IMP | ACC | IMM | ZER | ZEX | ZEY | ABS | ABX | ABY | ABI | INX | INY | REL
deriving DecidableEq

/-- Operation tags, one per `Op_*` member function. -/
inductive Opc where
  | ILLEGAL | ADC | AND | ASL | ASL_ACC | BCC | BCS | BEQ | BIT | BMI | BNE
  | BPL | BRK | BVC | BVS | CLC | CLD | CLI | CLV | CMP | CPX | CPY | DEC
  | DEX | DEY | EOR | INC | INX | INY | JMP | JSR | LDA | LDX | LDY | LSR
  | LSR_ACC | NOP | ORA | PHA | PHP | PLA | PLP | ROL | ROL_ACC | ROR
  | ROR_ACC | RTI | RTS | SBC | SEC | SED | SEI | STA | STX | STY | TAX
  | TAY | TSX | TXA | TXS | TYA
deriving DecidableEq

/-- Dispatch of an addressing-mode tag to its resolver. -/
def execAddr : Mode → State → State × Nat
  | .IMP => Addr_IMP
  | .ACC => Addr_ACC
  | .IMM => Addr_IMM
  | .ZER => Addr_ZER
  | .ZEX => Addr_ZEX
  | .ZEY => Addr_ZEY
  | .ABS => Addr_ABS
  | .ABX => Addr_ABX
  | .ABY => Addr_ABY
  | .ABI => Addr_ABI
  | .INX => Addr_INX
  | .INY => Addr_INY
  | .REL => Addr_REL

/-- Dispatch of an operation tag to its semantics. -/
def execOp : Opc → Nat → State → State
  | .ILLEGAL => Op_ILLEGAL
  | .ADC => Op_ADC
  | .AND => Op_AND
  | .ASL => Op_ASL
  | .ASL_ACC => Op_ASL_ACC
  | .BCC => Op_BCC
  | .BCS => Op_BCS
  | .BEQ => Op_BEQ
  | .BIT => Op_BIT
  | .BMI => Op_BMI
  | .BNE => Op_BNE
  | .BPL => Op_BPL
  | .BRK => Op_BRK
  | .BVC => Op_BVC
  | .BVS => Op_BVS
  | .CLC => Op_CLC
  | .CLD => Op_CLD
  | .CLI => Op_CLI
  | .CLV => Op_CLV
  | .CMP => Op_CMP
  | .CPX => Op_CPX
  | .CPY => Op_CPY
  | .DEC => Op_DEC
  | .DEX => Op_DEX
  | .DEY => Op_DEY
  | .EOR => Op_EOR
  | .INC => Op_INC
  | .INX => Op_INX
  | .INY => Op_INY
  | .JMP => Op_JMP
  | .JSR => Op_JSR
  | .LDA => Op_LDA
  | .LDX => Op_LDX
  | .LDY => Op_LDY
  | .LSR => Op_LSR
  | .LSR_ACC => Op_LSR_ACC
  | .NOP => Op_NOP
  | .ORA => Op_ORA
  | .PHA => Op_PHA
  | .PHP => Op_PHP
  | .PLA => Op_PLA
  | .PLP => Op_PLP
  | .ROL => Op_ROL
  | .ROL_ACC => Op_ROL_ACC
  | .ROR => Op_ROR
  | .ROR_ACC => Op_ROR_ACC
  | .RTI => Op_RTI
  | .RTS => Op_RTS
  | .SBC => Op_SBC
  | .SEC => Op_SEC
  | .SED => Op_SED
  | .SEI => Op_SEI
  | .STA => Op_STA
  | .STX => Op_STX
  | .STY => Op_STY
  | .TAX => Op_TAX
  | .TAY => Op_TAY
  | .TSX => Op_TSX
  | .TXA => Op_TXA
  | .TXS => Op_TXS
  | .TYA => Op_TYA

/-- The 256-entry `InstrTable` built by the constructor: opcode byte to
(addressing mode, operation, base cycles).  Every unmapped opcode holds
the illegal sentinel; the constructor copies an `Instr` whose `cycles`
field is never initialised for those slots, rendered here as 0 (no run
that reaches an illegal opcode uses the value, since the loop halts). -/
def instrTable : Nat → Mode × Opc × Nat
  | 0x69 => (.IMM, .ADC, 2)
  | 0x6D => (.ABS, .ADC, 4)
  | 0x65 => (.ZER, .ADC, 3)
  | 0x61 => (.INX, .ADC, 6)
  | 0x71 => (.INY, .ADC, 6)
  | 0x75 => (.ZEX, .ADC, 4)
  | 0x7D => (.ABX, .ADC, 4)
  | 0x79 => (.ABY, .ADC, 4)
  | 0x29 => (.IMM, .AND, 2)
  | 0x2D => (.ABS, .AND, 4)
  | 0x25 => (.ZER, .AND, 3)
  | 0x21 => (.INX, .AND, 6)
  | 0x31 => (.INY, .AND, 5)
  | 0x35 => (.ZEX, .AND, 4)
  | 0x3D => (.ABX, .AND, 4)
  | 0x39 => (.ABY, .AND, 4)
  | 0x0E => (.ABS, .ASL, 6)
  | 0x06 => (.ZER, .ASL, 5)
  | 0x0A => (.ACC, .ASL_ACC, 2)
  | 0x16 => (.ZEX, .ASL, 6)
  | 0x1E => (.ABX, .ASL, 7)
  | 0x90 => (.REL, .BCC, 2)
  | 0xB0 => (.REL, .BCS, 2)
  | 0xF0 => (.REL, .BEQ, 2)
  | 0x2C => (.ABS, .BIT, 4)
  | 0x24 => (.ZER, .BIT, 3)
  | 0x30 => (.REL, .BMI, 2)
  | 0xD0 => (.REL, .BNE, 2)
  | 0x10 => (.REL, .BPL, 2)
  | 0x00 => (.IMP, .BRK, 7)
  | 0x50 => (.REL, .BVC, 2)
  | 0x70 => (.REL, .BVS, 2)
  | 0x18 => (.IMP, .CLC, 2)
  | 0xD8 => (.IMP, .CLD, 2)
  | 0x58 => (.IMP, .CLI, 2)
  | 0xB8 => (.IMP, .CLV, 2)
  | 0xC9 => (.IMM, .CMP, 2)
  | 0xCD => (.ABS, .CMP, 4)
  | 0xC5 => (.ZER, .CMP, 3)
  | 0xC1 => (.INX, .CMP, 6)
  | 0xD1 => (.INY, .CMP, 3)
  | 0xD5 => (.ZEX, .CMP, 4)
  | 0xDD => (.ABX, .CMP, 4)
  | 0xD9 => (.ABY, .CMP, 4)
  | 0xE0 => (.IMM, .CPX, 2)
  | 0xEC => (.ABS, .CPX, 4)
  | 0xE4 => (.ZER, .CPX, 3)
  | 0xC0 => (.IMM, .CPY, 2)
  | 0xCC => (.ABS, .CPY, 4)
  | 0xC4 => (.ZER, .CPY, 3)
  | 0xCE => (.ABS, .DEC, 6)
  | 0xC6 => (.ZER, .DEC, 5)
  | 0xD6 => (.ZEX, .DEC, 6)
  | 0xDE => (.ABX, .DEC, 7)
  | 0xCA => (.IMP, .DEX, 2)
  | 0x88 => (.IMP, .DEY, 2)
  | 0x49 => (.IMM, .EOR, 2)
  | 0x4D => (.ABS, .EOR, 4)
  | 0x45 => (.ZER, .EOR, 3)
  | 0x41 => (.INX, .EOR, 6)
  | 0x51 => (.INY, .EOR, 5)
  | 0x55 => (.ZEX, .EOR, 4)
  | 0x5D => (.ABX, .EOR, 4)
  | 0x59 => (.ABY, .EOR, 4)
  | 0xEE => (.ABS, .INC, 6)
  | 0xE6 => (.ZER, .INC, 5)
  | 0xF6 => (.ZEX, .INC, 6)
  | 0xFE => (.ABX, .INC, 7)
  | 0xE8 => (.IMP, .INX, 2)
  | 0xC8 => (.IMP, .INY, 2)
  | 0x4C => (.ABS, .JMP, 3)
  | 0x6C => (.ABI, .JMP, 5)
  | 0x20 => (.ABS, .JSR, 6)
  | 0xA9 => (.IMM, .LDA, 2)
  | 0xAD => (.ABS, .LDA, 4)
  | 0xA5 => (.ZER, .LDA, 3)
  | 0xA1 => (.INX, .LDA, 6)
  | 0xB1 => (.INY, .LDA, 5)
  | 0xB5 => (.ZEX, .LDA, 4)
  | 0xBD => (.ABX, .LDA, 4)
  | 0xB9 => (.ABY, .LDA, 4)
  | 0xA2 => (.IMM, .LDX, 2)
  | 0xAE => (.ABS, .LDX, 4)
  | 0xA6 => (.ZER, .LDX, 3)
  | 0xBE => (.ABY, .LDX, 4)
  | 0xB6 => (.ZEY, .LDX, 4)
  | 0xA0 => (.IMM, .LDY, 2)
  | 0xAC => (.ABS, .LDY, 4)
  | 0xA4 => (.ZER, .LDY, 3)
  | 0xB4 => (.ZEX, .LDY, 4)
  | 0xBC => (.ABX, .LDY, 4)
  | 0x4E => (.ABS, .LSR, 6)
  | 0x46 => (.ZER, .LSR, 5)
  | 0x4A => (.ACC, .LSR_ACC, 2)
  | 0x56 => (.ZEX, .LSR, 6)
  | 0x5E => (.ABX, .LSR, 7)
  | 0xEA => (.IMP, .NOP, 2)
  | 0x09 => (.IMM, .ORA, 2)
  | 0x0D => (.ABS, .ORA, 4)
  | 0x05 => (.ZER, .ORA, 3)
  | 0x01 => (.INX, .ORA, 6)
  | 0x11 => (.INY, .ORA, 5)
  | 0x15 => (.ZEX, .ORA, 4)
  | 0x1D => (.ABX, .ORA, 4)
  | 0x19 => (.ABY, .ORA, 4)
  | 0x48 => (.IMP, .PHA, 3)
  | 0x08 => (.IMP, .PHP, 3)
  | 0x68 => (.IMP, .PLA, 4)
  | 0x28 => (.IMP, .PLP, 4)
  | 0x2E => (.ABS, .ROL, 6)
  | 0x26 => (.ZER, .ROL, 5)
  | 0x2A => (.ACC, .ROL_ACC, 2)
  | 0x36 => (.ZEX, .ROL, 6)
  | 0x3E => (.ABX, .ROL, 7)
  | 0x6E => (.ABS, .ROR, 6)
  | 0x66 => (.ZER, .ROR, 5)
  | 0x6A => (.ACC, .ROR_ACC, 2)
  | 0x76 => (.ZEX, .ROR, 6)
  | 0x7E => (.ABX, .ROR, 7)
  | 0x40 => (.IMP, .RTI, 6)
  | 0x60 => (.IMP, .RTS, 6)
  | 0xE9 => (.IMM, .SBC, 2)
  | 0xED => (.ABS, .SBC, 4)
  | 0xE5 => (.ZER, .SBC, 3)
  | 0xE1 => (.INX, .SBC, 6)
  | 0xF1 => (.INY, .SBC, 5)
  | 0xF5 => (.ZEX, .SBC, 4)
  | 0xFD => (.ABX, .SBC, 4)
  | 0xF9 => (.ABY, .SBC, 4)
  | 0x38 => (.IMP, .SEC, 2)
  | 0xF8 => (.IMP, .SED, 2)
  | 0x78 => (.IMP, .SEI, 2)
  | 0x8D => (.ABS, .STA, 4)
  | 0x85 => (.ZER, .STA, 3)
  | 0x81 => (.INX, .STA, 6)
  | 0x91 => (.INY, .STA, 6)
  | 0x95 => (.ZEX, .STA, 4)
  | 0x9D => (.ABX, .STA, 5)
  | 0x99 => (.ABY, .STA, 5)
  | 0x8E => (.ABS, .STX, 4)
  | 0x86 => (.ZER, .STX, 3)
  | 0x96 => (.ZEY, .STX, 4)
  | 0x8C => (.ABS, .STY, 4)
  | 0x84 => (.ZER, .STY, 3)
  | 0x94 => (.ZEX, .STY, 4)
  | 0xAA => (.IMP, .TAX, 2)
  | 0xA8 => (.IMP, .TAY, 2)
  | 0xBA => (.IMP, .TSX, 2)
  | 0x8A => (.IMP, .TXA, 2)
  | 0x9A => (.IMP, .TXS, 2)
  | 0x98 => (.IMP, .TYA, 2)
  | _ => (.IMP, .ILLEGAL, 0)

/-- `Exec(i)`: run the resolver, then the operation on its result. -/
def exec (s : State) (mode : Mode) (op : Opc) : State :=
  let p := execAddr mode s
  execOp op p.2 p.1

/-- One iteration of the `Run` loop body: fetch the opcode at PC,
advance PC, decode through `instrTable` and execute; returns the new
state and the instruction's base cycle count. -/
def stepInstr (s : State) : State × Nat :=
  let opcode := busRead s s.pc
  let s1 := { s with pc := (s.pc + 1) % 65536 }
  let i := instrTable opcode
  (exec s1 i.1 i.2.1, i.2.2)

/-- The cycle-accounting mode of `Run`. -/
inductive CycleMethod where
  | INST_COUNT | CYCLE_COUNT
deriving DecidableEq

/-- The `Run` loop: while the remaining-cycle budget is positive and the
illegal-opcode flag is down, execute one instruction, add its base
cycles to the cumulative counter, and decrement the budget by the base
cycles (`CYCLE_COUNT`) or by one (`INST_COUNT`).  The `fuel` argument
bounds the number of iterations modelled: `none` means the loop was
still running when the fuel ran out, so a `some` result is exactly the
state and counter at the C++ loop's own exit.  A step that takes the
`exit(1)` path of `Op_RTS` ends the process at once: the counter update
after `Exec` never happens. -/
def run (fuel : Nat) (cyclesRemaining : Int) (method : CycleMethod) (s : State)
    (cycleCount : Nat) : Option (State × Nat) :=
  match fuel with
  | 0 => if 0 < cyclesRemaining ∧ ¬ s.illegalOpcode then none else some (s, cycleCount)
  | fuel + 1 =>
    if 0 < cyclesRemaining ∧ ¬ s.illegalOpcode then
      let p := stepInstr s
      if p.1.exited then some (p.1, cycleCount)
      else
        run fuel
          (cyclesRemaining - (match method with | .CYCLE_COUNT => (p.2 : Int) | .INST_COUNT => 1))
          method p.1 (cycleCount + p.2)
    else some (s, cycleCount)

/-! ### Concrete programs and states used by the end-to-end scenarios -/

/-- The all-zero host memory. -/
def zeroMem : Nat → Nat := fun _ => 0

/-- Memory holding NOP (0xEA) at 0x0300..0x030F, zero elsewhere. -/
def nopMem : Nat → Nat := fun a => if 0x300 ≤ a ∧ a ≤ 0x30F then 0xEA else 0

/-- Power-on state for the reset-then-NOP scenario. -/
def nopStart : State := ⟨0, 0, 0, 0, 0, 0, false, false, nopMem⟩

/-- Memory holding `20 10 03` (JSR $0310) at 0x0300 and `A2 07 60`
(LDX #7; RTS) at 0x0310. -/
def jsrMem : Nat → Nat := fun a =>
  if a = 0x300 then 0x20 else if a = 0x301 then 0x10 else if a = 0x302 then 0x03 else
  if a = 0x310 then 0xA2 else if a = 0x311 then 0x07 else if a = 0x312 then 0x60 else 0

/-- Power-on state for the JSR/RTS scenario. -/
def jsrStart : State := ⟨0, 0, 0, 0, 0, 0, false, false, jsrMem⟩

/-- Memory holding `20 10 03` (JSR $0310) at 0x0300 and an immediate
RTS (0x60) at 0x0310. -/
def jsrRtsMem : Nat → Nat := fun a =>
  if a = 0x300 then 0x20 else if a = 0x301 then 0x10 else if a = 0x302 then 0x03 else
  if a = 0x310 then 0x60 else 0

/-- A state about to execute the JSR of `jsrRtsMem`. -/
def jsrRtsState : State := ⟨0, 0, 0, 0xFD, 0x300, 0x20, false, false, jsrRtsMem⟩

/-- Memory for the indirect-JMP page-boundary scenario: `6C FF 02` at
0x0300, pointer low byte 0x80 at 0x02FF, and 0x50 at 0x0200 (while
0x0300 holds the opcode byte 0x6C, not a pointer byte). -/
def abiMem : Nat → Nat := fun a =>
  if a = 0x300 then 0x6C else if a = 0x301 then 0xFF else if a = 0x302 then 0x02 else
  if a = 0x2FF then 0x80 else if a = 0x200 then 0x50 else 0

/-- A state about to execute the indirect JMP of `abiMem`. -/
def abiState : State := ⟨0, 0, 0, 0, 0x300, 0, false, false, abiMem⟩

/-- Memory holding `69 01` (ADC #$01) at 0x0200. -/
def adcMem : Nat → Nat := fun a => if a = 0x200 then 0x69 else if a = 0x201 then 1 else 0

/-- A state about to execute ADC #$01 with A = 0x7F, C = 0, D = 0. -/
def adcState7F : State := ⟨0x7F, 0, 0, 0, 0x200, 0, false, false, adcMem⟩

/-- A state about to execute ADC #$01 with A = 0xFF, C = 0, D = 0. -/
def adcStateFF : State := ⟨0xFF, 0, 0, 0, 0x200, 0, false, false, adcMem⟩

/-- Memory holding `E9 B0` (SBC #$B0) at 0x0200. -/
def sbcMem : Nat → Nat := fun a => if a = 0x200 then 0xE9 else if a = 0x201 then 0xB0 else 0

/-- A state about to execute SBC #$B0 with A = 0x50, C = 1, D = 0. -/
def sbcState : State := ⟨0x50, 0, 0, 0, 0x200, 1, false, false, sbcMem⟩

/-- A state with SP = 0 and U set, over all-zero memory; its RTI pops
the status byte 0 from address 0x0101. -/
def rtiState : State := ⟨0, 0, 0, 0, 0x400, 0x20, false, false, zeroMem⟩

/-- A state with status 0 and SP = 0xFD over all-zero memory. -/
def phpState : State := ⟨0, 0, 0, 0xFD, 0x400, 0, false, false, zeroMem⟩

/-- A state with SP = 0xFD over all-zero memory: its RTS pops twice,
leaving SP = 0xFF, which triggers the emulator's dump-and-exit path. -/
def rtsState : State := ⟨0, 0, 0, 0xFD, 0x400, 0, false, false, zeroMem⟩

/-- A state with the I flag clear, PC = 0x1234, SP = 0xFD, and the IRQ
vector holding 0x0400. -/
def irqLowState : State :=
  ⟨1, 2, 3, 0xFD, 0x1234, 0, false, false,
   fun a => if a = 0xFFFE then 0x00 else if a = 0xFFFF then 0x04 else 0⟩

/-- A state with the I flag set, over all-zero memory. -/
def irqHighState : State := ⟨1, 2, 3, 0xFD, 0x1234, 0x04, false, false, zeroMem⟩

/-- A state about to execute the JSR of `jsrRtsMem` with SP = 0xFF, so
that the subsequent RTS pops leave SP back at 0xFF. -/
def jsrCtrState : State := ⟨0, 0, 0, 0xFF, 0x300, 0x20, false, false, jsrRtsMem⟩

/-! ### Bit-arithmetic helper lemmas -/

lemma testBit_255 (i : Nat) : (255 : Nat).testBit i = decide (i < 8) := by
  rw [show (255 : Nat) = 2 ^ 8 - 1 by norm_num]
  exact Nat.testBit_two_pow_sub_one 8 i

lemma and255 (x : Nat) : x &&& 255 = x % 256 := by
  have h : (255 : Nat) = 2 ^ 8 - 1 := by norm_num
  have h2 : (256 : Nat) = 2 ^ 8 := by norm_num
  rw [h, h2, Nat.and_pow_two_sub_one_eq_mod]

lemma shl8_lor_eq_add (q r : Nat) (hr : r < 256) : (q <<< 8) ||| r = q * 256 + r := by
  have h256 : (256 : Nat) = 2 ^ 8 := by norm_num
  have hr' : r < 2 ^ 8 := by rw [← h256]; exact hr
  apply Nat.eq_of_testBit_eq
  intro i
  rw [show q * 256 + r = 2 ^ 8 * q + r by rw [h256]; ring]
  rw [Nat.testBit_mul_pow_two_add q hr' i]
  rw [Nat.testBit_or, Nat.testBit_shiftLeft]
  by_cases h : i < 8
  · have h8 : ¬ (8 ≤ i) := by omega
    simp [h, h8]
  · have h8 : 8 ≤ i := by omega
    have hz : r.testBit i = false :=
      Nat.testBit_lt_two_pow (lt_of_lt_of_le hr'
        (Nat.pow_le_pow_right (by norm_num) h8))
    simp [h, h8, hz]

lemma pc_split (p : Nat) (hp : p < 65536) :
    ((p >>> 8) &&& 255) <<< 8 ||| (p &&& 255) = p := by
  have hdiv : p >>> 8 = p / 256 := by
    rw [Nat.shiftRight_eq_div_pow]
  have h1 : p >>> 8 &&& 255 = p >>> 8 := by
    rw [and255, Nat.mod_eq_of_lt (by omega : p >>> 8 < 256)]
  rw [h1, and255, shl8_lor_eq_add _ _ (Nat.mod_lt _ (by norm_num)), hdiv]
  omega

lemma andFF00_as_shl (x : Nat) : x &&& 0xFF00 = ((x >>> 8) &&& 255) <<< 8 := by
  apply Nat.eq_of_testBit_eq
  intro i
  rw [show (0xFF00 : Nat) = 255 <<< 8 by decide]
  simp only [Nat.testBit_and, Nat.testBit_shiftLeft, Nat.testBit_shiftRight, testBit_255]
  by_cases h : 8 ≤ i
  · have he : 8 + (i - 8) = i := by omega
    simp [h, he]
  · simp [h]

lemma andFF00_lor_eq_add (x c : Nat) (hc : c < 256) :
    (x &&& 0xFF00) ||| c = (x &&& 0xFF00) + c := by
  rw [andFF00_as_shl, shl8_lor_eq_add _ _ hc, Nat.shiftLeft_eq]

/-! ### Flag helper lemmas -/

lemma testBit_setFlag (m : Nat) (b : Bool) (st : Nat) (j : Nat) (hj : j < 8) :
    (setFlag m b st).testBit j = if m.testBit j then b else st.testBit j := by
  cases b <;> by_cases hm : m.testBit j <;>
    simp [setFlag, Nat.testBit_or, Nat.testBit_and, Nat.testBit_xor, testBit_255, hj, hm]

lemma testBit_setFlag_ne (m : Nat) (b : Bool) (st : Nat) (j : Nat) (hj : j < 8)
    (hm : m.testBit j = false) : (setFlag m b st).testBit j = st.testBit j := by
  rw [testBit_setFlag _ _ _ j hj, hm]
  simp

lemma ifFlag_eq_testBit (k : Nat) (s : State) : ifFlag (2 ^ k) s = s.status.testBit k := by
  unfold ifFlag
  rw [Nat.and_two_pow]
  rcases h : s.status.testBit k <;> simp [h]

@[simp] lemma ifFlag_CARRY (s : State) : ifFlag CARRY s = s.status.testBit 0 :=
  ifFlag_eq_testBit 0 s

@[simp] lemma ifFlag_ZERO (s : State) : ifFlag ZERO s = s.status.testBit 1 :=
  ifFlag_eq_testBit 1 s

@[simp] lemma ifFlag_INTERRUPT (s : State) : ifFlag INTERRUPT s = s.status.testBit 2 :=
  ifFlag_eq_testBit 2 s

@[simp] lemma ifFlag_DECIMAL (s : State) : ifFlag DECIMAL s = s.status.testBit 3 :=
  ifFlag_eq_testBit 3 s

@[simp] lemma ifFlag_BREAK (s : State) : ifFlag BREAK s = s.status.testBit 4 :=
  ifFlag_eq_testBit 4 s

@[simp] lemma ifFlag_CONSTANT (s : State) : ifFlag CONSTANT s = s.status.testBit 5 :=
  ifFlag_eq_testBit 5 s

@[simp] lemma ifFlag_OVERFLOW (s : State) : ifFlag OVERFLOW s = s.status.testBit 6 :=
  ifFlag_eq_testBit 6 s

@[simp] lemma ifFlag_NEGATIVE (s : State) : ifFlag NEGATIVE s = s.status.testBit 7 :=
  ifFlag_eq_testBit 7 s

/-! ### Bus and stack helper lemmas -/

lemma busRead_busWrite (s : State) (a v b : Nat) :
    busRead (busWrite s a v) b =
      if b % 65536 = a % 65536 then v % 256 else busRead s b := by
  unfold busRead busWrite
  dsimp only
  split <;> [omega; rfl]

lemma busRead_lt (s : State) (a : Nat) : busRead s a < 256 :=
  Nat.mod_lt _ (by norm_num)

@[simp] lemma testBit_mask1 (j : Nat) : (1 : Nat).testBit j = decide (0 = j) := by
  rw [show (1 : Nat) = 2 ^ 0 from rfl]; exact Nat.testBit_two_pow

@[simp] lemma testBit_mask2 (j : Nat) : (2 : Nat).testBit j = decide (1 = j) := by
  rw [show (2 : Nat) = 2 ^ 1 from rfl]; exact Nat.testBit_two_pow

@[simp] lemma testBit_mask4 (j : Nat) : (4 : Nat).testBit j = decide (2 = j) := by
  rw [show (4 : Nat) = 2 ^ 2 from rfl]; exact Nat.testBit_two_pow

@[simp] lemma testBit_mask8 (j : Nat) : (8 : Nat).testBit j = decide (3 = j) := by
  rw [show (8 : Nat) = 2 ^ 3 from rfl]; exact Nat.testBit_two_pow

@[simp] lemma testBit_mask16 (j : Nat) : (16 : Nat).testBit j = decide (4 = j) := by
  rw [show (16 : Nat) = 2 ^ 4 from rfl]; exact Nat.testBit_two_pow

@[simp] lemma testBit_mask32 (j : Nat) : (32 : Nat).testBit j = decide (5 = j) := by
  rw [show (32 : Nat) = 2 ^ 5 from rfl]; exact Nat.testBit_two_pow

@[simp] lemma testBit_mask64 (j : Nat) : (64 : Nat).testBit j = decide (6 = j) := by
  rw [show (64 : Nat) = 2 ^ 6 from rfl]; exact Nat.testBit_two_pow

@[simp] lemma testBit_mask128 (j : Nat) : (128 : Nat).testBit j = decide (7 = j) := by
  rw [show (128 : Nat) = 2 ^ 7 from rfl]; exact Nat.testBit_two_pow

@[simp] lemma busRead_withStatus (s : State) (st a : Nat) :
    busRead (withStatus s st) a = busRead s a := rfl

@[simp] lemma withStatus_status (s : State) (st : Nat) : (withStatus s st).status = st := rfl

@[simp] lemma withStatus_sp (s : State) (st : Nat) : (withStatus s st).sp = s.sp := rfl

@[simp] lemma withStatus_pc (s : State) (st : Nat) : (withStatus s st).pc = s.pc := rfl

@[simp] lemma withStatus_exited (s : State) (st : Nat) : (withStatus s st).exited = s.exited := rfl

@[simp] lemma stackPush_status (s : State) (v : Nat) : (stackPush s v).status = s.status := rfl

@[simp] lemma stackPush_pc (s : State) (v : Nat) : (stackPush s v).pc = s.pc := rfl

@[simp] lemma stackPush_exited (s : State) (v : Nat) : (stackPush s v).exited = s.exited := rfl

lemma stackPush_sp (s : State) (v : Nat) :
    (stackPush s v).sp = if s.sp = 0 then 255 else s.sp - 1 := rfl

lemma stackPush_busRead (s : State) (v a : Nat) :
    busRead (stackPush s v) a =
      if a % 65536 = (0x100 + s.sp) % 65536 then v % 256 else busRead s a := by
  have h : busRead (stackPush s v) a = busRead (busWrite s (0x100 + s.sp) v) a := rfl
  rw [h, busRead_busWrite]

lemma stackPop_stackPush_snd (s : State) (v : Nat) (h : s.sp < 256) :
    (stackPop (stackPush s v)).2 = v % 256 := by
  simp only [stackPop, stackPush, busWrite, busRead]
  split_ifs <;> omega

lemma stackPop_stackPush_sp (s : State) (v : Nat) (h : s.sp < 256) :
    (stackPop (stackPush s v)).1.sp = s.sp := by
  simp only [stackPop, stackPush]
  split_ifs <;> omega

lemma busRead_stackPush_ne (s : State) (v a : Nat)
    (h : a % 65536 ≠ (0x100 + s.sp) % 65536) :
    busRead (stackPush s v) a = busRead s a := by
  rw [stackPush_busRead, if_neg h]

lemma busRead_stackPush_eq (s : State) (v a : Nat)
    (h : a % 65536 = (0x100 + s.sp) % 65536) :
    busRead (stackPush s v) a = v % 256 := by
  rw [stackPush_busRead, if_pos h]

/-! ### Run-loop helper lemmas -/

lemma run_add (fuel : Nat) (cr : Int) (m : CycleMethod) (s : State) (c k : Nat) :
    run fuel cr m s (k + c) = (run fuel cr m s c).map (fun p => (p.1, k + p.2)) := by
  induction fuel generalizing cr s c with
  | zero =>
    unfold run
    split <;> rfl
  | succ n ih =>
    unfold run
    split
    · dsimp only
      split
      · rfl
      · rw [show k + c + (stepInstr s).2 = k + (c + (stepInstr s).2) from by omega]
        exact ih _ _ _
    · rfl

lemma run_shift (fuel : Nat) (cr : Int) (m : CycleMethod) (s : State) (c : Nat) :
    run fuel cr m s c = (run fuel cr m s 0).map (fun p => (p.1, c + p.2)) := by
  have h := run_add fuel cr m s 0 c
  simpa using h

@[simp] lemma busRead_pcUpdate (s : State) (x a : Nat) :
    busRead { s with pc := x } a = busRead s a := rfl

@[simp] lemma exited_ite (c : Prop) [Decidable c] (a b : State) :
    (if c then a else b).exited = if c then a.exited else b.exited := by
  split <;> rfl

/-! ### Claim theorems -/

/-- C10: `Reset` forces bit U (0x20) of P to 1 and preserves every other
bit of P — the C, Z, I, D, B, V and N bits keep their pre-reset values;
in particular Reset does not clear the D flag and does not set the I
flag. -/
theorem reset_preserves_status_bits (s : State) (start : Nat) :
    (reset s start).status = s.status ||| 0x20 ∧
    (reset s start).status.testBit 5 = true ∧
    (reset s start).status.testBit 0 = s.status.testBit 0 ∧
    (reset s start).status.testBit 1 = s.status.testBit 1 ∧
    (reset s start).status.testBit 2 = s.status.testBit 2 ∧
    (reset s start).status.testBit 3 = s.status.testBit 3 ∧
    (reset s start).status.testBit 4 = s.status.testBit 4 ∧
    (reset s start).status.testBit 6 = s.status.testBit 6 ∧
    (reset s start).status.testBit 7 = s.status.testBit 7 := by
  have h : (reset s start).status = s.status ||| 32 := rfl
  refine ⟨h, ?_, ?_, ?_, ?_, ?_, ?_, ?_, ?_⟩ <;> simp [h, Nat.testBit_or]

/-- C1 (counterexample): at `rtiState` bit U of P is 1 before RTI, the
popped status byte is 0, and after RTI bit U of P is 0 — refuting the
claim that bit U equals 1 after RTI for every state and memory. -/
theorem rti_drops_U_bit :
    (Op_RTI 0 rtiState).status.testBit 5 = false ∧
    rtiState.status.testBit 5 = true := by decide

/-- C1 (amended): bit U of P is 1 after `Reset` and after `Op_PLP` for
every starting state and memory; `Op_RTI` instead loads P with exactly
the byte popped from the stack, without forcing bit U. -/
theorem status_U_after_reset_plp_rti (s : State) (start src : Nat) :
    (reset s start).status.testBit 5 = true ∧
    (Op_PLP src s).status.testBit 5 = true ∧
    (Op_RTI src s).status = (stackPop s).2 := by
  refine ⟨?_, ?_, rfl⟩
  · have h : (reset s start).status = s.status ||| 32 := rfl
    simp [h, Nat.testBit_or]
  · have h : (Op_PLP src s).status = (stackPop s).2 ||| 32 := rfl
    simp [h, Nat.testBit_or]

/-- C2 (counterexample): at `phpState` the B bit of P is 0, yet after
PHP immediately followed by PLP the B bit of P is 1 — the pair forces
B (PHP pushes `P | B`), so it does not restore every bit except U. -/
theorem php_plp_forces_B :
    (Op_PLP 0 (Op_PHP 0 phpState)).status.testBit 4 = true ∧
    phpState.status.testBit 4 = false := by decide

/-- C2 (amended): for every CPU state (with 8-bit status and stack
pointer), PHP immediately followed by PLP restores the C, Z, I, D, V
and N bits of P and forces both U and B to 1, because PHP pushes
`P | B` and PLP forces U. -/
theorem php_plp_roundtrip (s : State) (hst : s.status < 256) (hsp : s.sp < 256) :
    (Op_PLP 0 (Op_PHP 0 s)).status.testBit 0 = s.status.testBit 0 ∧
    (Op_PLP 0 (Op_PHP 0 s)).status.testBit 1 = s.status.testBit 1 ∧
    (Op_PLP 0 (Op_PHP 0 s)).status.testBit 2 = s.status.testBit 2 ∧
    (Op_PLP 0 (Op_PHP 0 s)).status.testBit 3 = s.status.testBit 3 ∧
    (Op_PLP 0 (Op_PHP 0 s)).status.testBit 6 = s.status.testBit 6 ∧
    (Op_PLP 0 (Op_PHP 0 s)).status.testBit 7 = s.status.testBit 7 ∧
    (Op_PLP 0 (Op_PHP 0 s)).status.testBit 5 = true ∧
    (Op_PLP 0 (Op_PHP 0 s)).status.testBit 4 = true := by
  have h1 : (Op_PLP 0 (Op_PHP 0 s)).status =
      setFlag CONSTANT true ((stackPop (stackPush s (s.status ||| BREAK))).2) := rfl
  have h2 : (stackPop (stackPush s (s.status ||| BREAK))).2 = (s.status ||| BREAK) % 256 :=
    stackPop_stackPush_snd _ _ hsp
  have hlt : s.status ||| BREAK < 2 ^ 8 :=
    Nat.or_lt_two_pow (lt_of_lt_of_eq hst (by norm_num)) (by norm_num [BREAK])
  have h3 : (s.status ||| BREAK) % 256 = s.status ||| BREAK :=
    Nat.mod_eq_of_lt (lt_of_lt_of_eq hlt (by norm_num))
  have h4 : (Op_PLP 0 (Op_PHP 0 s)).status = (s.status ||| 16) ||| 32 := by
    rw [h1, h2, h3]; rfl
  refine ⟨?_, ?_, ?_, ?_, ?_, ?_, ?_, ?_⟩ <;> simp [h4, Nat.testBit_or]

/-- C3: for every state, the ABI resolver returns
`low + 0x100 * high` where the low byte is read at the pointer `ABS`
formed from its two operand bytes and the high byte is read at
`(ABS & 0xFF00) | ((ABS + 1) & 0x00FF)`; consequently the instruction
`6C FF 02` at 0x0300 with memory 0x02FF = 0x80 and 0x0200 = 0x50 sets
PC = 0x5080 (the NMOS indirect-JMP page-boundary bug). -/
theorem abi_resolver_page_bug :
    (∀ s : State,
      (Addr_ABI s).2 =
        busRead s ((busRead s ((s.pc + 1) % 65536) <<< 8) ||| busRead s s.pc) +
        0x100 * busRead s
          ((((busRead s ((s.pc + 1) % 65536) <<< 8) ||| busRead s s.pc) &&& 0xFF00) |||
           ((((busRead s ((s.pc + 1) % 65536) <<< 8) ||| busRead s s.pc) + 1) &&& 0x00FF))) ∧
    (stepInstr abiState).1.pc = 0x5080 := by
  constructor
  · intro s
    simp only [Addr_ABI, busRead_pcUpdate]
    rw [andFF00_lor_eq_add _ _ (by rw [and255]; exact Nat.mod_lt _ (by norm_num))]
  · decide

/-- C4: for every state with D = 0, ADC computes `t = A + m + C` in
unbounded width and sets Z from `t % 256`, N from `t & 0x80`, V from
`((A ^ m) & 0x80 == 0) && ((A ^ t) & 0x80 != 0)`, C from `t > 0xFF`,
and finally `A := t % 256`; in particular `ADC #$01` with A = 0x7F,
C = 0 gives A = 0x80, N = 1, V = 1, C = 0, Z = 0, and with A = 0xFF,
C = 0 gives A = 0x00, N = 0, V = 0, C = 1, Z = 1. -/
theorem adc_binary_semantics :
    (∀ (s : State) (src : Nat), s.status.testBit 3 = false →
      (Op_ADC src s).A =
          (s.A + busRead s src + (if s.status.testBit 0 then 1 else 0)) % 256 ∧
      (Op_ADC src s).status.testBit 1 =
          decide ((s.A + busRead s src + (if s.status.testBit 0 then 1 else 0)) % 256 = 0) ∧
      (Op_ADC src s).status.testBit 7 =
          decide ((s.A + busRead s src + (if s.status.testBit 0 then 1 else 0)) &&& 0x80 ≠ 0) ∧
      (Op_ADC src s).status.testBit 6 =
          (decide ((s.A ^^^ busRead s src) &&& 0x80 = 0) &&
           decide ((s.A ^^^ (s.A + busRead s src + (if s.status.testBit 0 then 1 else 0))) &&& 0x80 ≠ 0)) ∧
      (Op_ADC src s).status.testBit 0 =
          decide (s.A + busRead s src + (if s.status.testBit 0 then 1 else 0) > 0xFF)) ∧
    ((stepInstr adcState7F).1.A = 0x80 ∧
     (stepInstr adcState7F).1.status.testBit 7 = true ∧
     (stepInstr adcState7F).1.status.testBit 6 = true ∧
     (stepInstr adcState7F).1.status.testBit 0 = false ∧
     (stepInstr adcState7F).1.status.testBit 1 = false) ∧
    ((stepInstr adcStateFF).1.A = 0x00 ∧
     (stepInstr adcStateFF).1.status.testBit 7 = false ∧
     (stepInstr adcStateFF).1.status.testBit 6 = false ∧
     (stepInstr adcStateFF).1.status.testBit 0 = true ∧
     (stepInstr adcStateFF).1.status.testBit 1 = true) := by
  refine ⟨?_, by decide, by decide⟩
  intro s src hD
  have hzero : ∀ b : Bool, ifFlag DECIMAL (withStatus s (setFlag ZERO b s.status)) = false := by
    intro b
    rw [ifFlag_DECIMAL, withStatus_status, testBit_setFlag _ _ _ 3 (by norm_num)]
    simp [ZERO, hD]
  unfold Op_ADC
  dsimp only
  rw [ifFlag_CARRY, hzero]
  simp only [Bool.false_eq_true, reduceIte]
  rw [show busRead s src + s.A + (if s.status.testBit 0 = true then 1 else 0)
        = s.A + busRead s src + (if s.status.testBit 0 = true then 1 else 0) from by ring]
  refine ⟨?_, ?_, ?_, ?_, ?_⟩
  · dsimp only
    rw [and255]
  · dsimp only
    simp [testBit_setFlag, CARRY, OVERFLOW, NEGATIVE, ZERO, and255]
  · dsimp only
    simp [testBit_setFlag, CARRY, OVERFLOW, NEGATIVE, ZERO]
  · dsimp only
    simp [testBit_setFlag, CARRY, OVERFLOW, NEGATIVE, ZERO]
  · dsimp only
    simp only [withStatus_status]
    rw [testBit_setFlag _ _ _ 0 (by norm_num)]
    simp [CARRY]

/-- C4 (witness): the universal part of `adc_binary_semantics`
instantiated at `adcState7F` with source address 0x0201, whose D flag
is clear. -/
theorem adc_binary_semantics_witness :
    (Op_ADC 0x201 adcState7F).A =
      (adcState7F.A + busRead adcState7F 0x201 +
        (if adcState7F.status.testBit 0 then 1 else 0)) % 256 := by
  have h := adc_binary_semantics.1 adcState7F 0x201 (by decide)
  exact h.1

/-- C5: for every state, SBC computes `t = A - m - (C?0:1)` wrapping in
32-bit width and sets N from `t & 0x80`, Z from `t & 0xFF`, V from
`((A ^ t) & 0x80) && ((A ^ m) & 0x80)`; then, after the optional D = 1
adjustment of t, sets C to `t < 0x100` and `A := t & 0xFF`; in
particular `SBC #$B0` with A = 0x50, C = 1, D = 0 gives A = 0xA0,
V = 1, C = 0, N = 1, Z = 0. -/
theorem sbc_semantics :
    (∀ (s : State) (src : Nat),
      let m := busRead s src
      let borrow : Nat := if s.status.testBit 0 then 0 else 1
      let t := (s.A + 4294967296 - m - borrow) % 4294967296
      let t1 := if ((s.A &&& 0x0F : Nat) : Int) - borrow < ((m &&& 0x0F : Nat) : Int)
                then (t + 4294967296 - 6) % 4294967296 else t
      let tadj := if s.status.testBit 3
                  then (if t1 > 0x99 then (t1 + 4294967296 - 0x60) % 4294967296 else t1)
                  else t
      (Op_SBC src s).status.testBit 7 = decide (t &&& 0x80 ≠ 0) ∧
      (Op_SBC src s).status.testBit 1 = decide (t &&& 0xFF = 0) ∧
      (Op_SBC src s).status.testBit 6 =
        (decide ((s.A ^^^ t) &&& 0x80 ≠ 0) && decide ((s.A ^^^ m) &&& 0x80 ≠ 0)) ∧
      (Op_SBC src s).status.testBit 0 = decide (tadj < 0x100) ∧
      (Op_SBC src s).A = tadj &&& 0xFF) ∧
    ((stepInstr sbcState).1.A = 0xA0 ∧
     (stepInstr sbcState).1.status.testBit 6 = true ∧
     (stepInstr sbcState).1.status.testBit 0 = false ∧
     (stepInstr sbcState).1.status.testBit 7 = true ∧
     (stepInstr sbcState).1.status.testBit 1 = false) := by
  refine ⟨?_, by decide⟩
  intro s src
  dsimp only
  unfold Op_SBC
  dsimp only
  simp only [ifFlag_CARRY, ifFlag_DECIMAL, withStatus_status]
  rw [testBit_setFlag_ne _ _ _ 3 (by norm_num) (by simp [OVERFLOW]),
      testBit_setFlag_ne _ _ _ 3 (by norm_num) (by simp [ZERO]),
      testBit_setFlag_ne _ _ _ 3 (by norm_num) (by simp [NEGATIVE]),
      testBit_setFlag_ne _ _ _ 0 (by norm_num) (by simp [OVERFLOW]),
      testBit_setFlag_ne _ _ _ 0 (by norm_num) (by simp [ZERO]),
      testBit_setFlag_ne _ _ _ 0 (by norm_num) (by simp [NEGATIVE])]
  refine ⟨?_, ?_, ?_, ?_, ?_⟩
  · dsimp only
    rw [testBit_setFlag_ne _ _ _ 7 (by norm_num) (by simp [CARRY]),
        testBit_setFlag_ne _ _ _ 7 (by norm_num) (by simp [OVERFLOW]),
        testBit_setFlag_ne _ _ _ 7 (by norm_num) (by simp [ZERO]),
        testBit_setFlag _ _ _ 7 (by norm_num)]
    simp [NEGATIVE]
  · dsimp only
    rw [testBit_setFlag_ne _ _ _ 1 (by norm_num) (by simp [CARRY]),
        testBit_setFlag_ne _ _ _ 1 (by norm_num) (by simp [OVERFLOW]),
        testBit_setFlag _ _ _ 1 (by norm_num)]
    simp [ZERO]
  · dsimp only
    rw [testBit_setFlag_ne _ _ _ 6 (by norm_num) (by simp [CARRY]),
        testBit_setFlag _ _ _ 6 (by norm_num)]
    simp [OVERFLOW]
  · dsimp only
    rw [testBit_setFlag _ _ _ 0 (by norm_num)]
    simp [CARRY]
  · dsimp only
    simp only [apply_ite (fun n : Nat => (n : Int)), Nat.cast_zero, Nat.cast_one]

/-- C8 (counterexample): at `rtsState` (SP = 0xFD), RTS pops twice,
SP becomes 0xFF, and the operation takes the dump-and-exit path — it
prints and terminates the host process, refuting the claim that no
operation ever produces terminal output or terminates the host. -/
theorem rts_exit_path_observable :
    (Op_RTS 0 rtsState).exited = true ∧ rtsState.exited = false := by decide

set_option maxRecDepth 8000 in
set_option maxHeartbeats 4000000 in
/-- C8 (amended): no operation other than RTS and no addressing-mode
resolver ever touches the `exited` flag (the model of the dump-and-exit
path, the core's only terminal output); RTS raises it exactly when its
two pops leave SP = 0xFF. -/
theorem core_silent_except_rts :
    (∀ (op : Opc) (src : Nat) (s : State), op ≠ Opc.RTS →
        (execOp op src s).exited = s.exited) ∧
    (∀ (mode : Mode) (s : State), (execAddr mode s).1.exited = s.exited) ∧
    (∀ (src : Nat) (s : State), s.sp < 256 →
        (execOp Opc.RTS src s).exited =
          (s.exited || decide ((s.sp + 2) % 256 = 255))) := by
  refine ⟨?_, ?_, ?_⟩
  · intro op src s h
    cases op <;>
      first
        | exact absurd rfl h
        | (simp only [execOp, Op_ILLEGAL, Op_ADC, Op_AND, Op_ASL, Op_ASL_ACC, Op_BCC,
             Op_BCS, Op_BEQ, Op_BIT, Op_BMI, Op_BNE, Op_BPL, Op_BRK, Op_BVC, Op_BVS,
             Op_CLC, Op_CLD, Op_CLI, Op_CLV, Op_CMP, Op_CPX, Op_CPY, Op_DEC, Op_DEX,
             Op_DEY, Op_EOR, Op_INC, Op_INX, Op_INY, Op_JMP, Op_JSR, Op_LDA, Op_LDX,
             Op_LDY, Op_LSR, Op_LSR_ACC, Op_NOP, Op_ORA, Op_PHA, Op_PHP, Op_PLA,
             Op_PLP, Op_ROL, Op_ROL_ACC, Op_ROR, Op_ROR_ACC, Op_RTI, Op_SBC, Op_SEC,
             Op_SED, Op_SEI, Op_STA, Op_STX, Op_STY, Op_TAX, Op_TAY, Op_TSX, Op_TXA,
             Op_TXS, Op_TYA, withStatus, stackPush, stackPop, busWrite, exited_ite,
             ite_self])
  · intro mode s
    cases mode <;> rfl
  · intro src s h
    show (Op_RTS src s).exited = _
    unfold Op_RTS
    simp only [stackPop]
    have hspe : (if (if s.sp = 255 then 0 else s.sp + 1) = 255 then 0
        else (if s.sp = 255 then 0 else s.sp + 1) + 1) = (s.sp + 2) % 256 := by
      split_ifs with h1 h2 h3
      · exact h2.elim
      · omega
      · omega
      · omega
    rw [hspe]
    by_cases hx : (s.sp + 2) % 256 = 255 <;> simp [hx]

/-- C8 (witness): `core_silent_except_rts` instantiated at NOP over
`phpState` and at RTS over `rtsState`, discharging both hypotheses. -/
theorem core_silent_except_rts_witness :
    (execOp Opc.NOP 0 phpState).exited = phpState.exited ∧
    (execOp Opc.RTS 0 rtsState).exited =
      (rtsState.exited || decide ((rtsState.sp + 2) % 256 = 255)) :=
  ⟨core_silent_except_rts.1 Opc.NOP 0 phpState (by decide),
   core_silent_except_rts.2.2 0 rtsState (by decide)⟩

set_option maxHeartbeats 1000000 in
/-- C9: a call to the IRQ entry point with the I flag set leaves the
whole CPU state (registers, flags and memory) unchanged; with I clear
it clears B, pushes PC high, PC low, then P, sets I, and loads PC
little-endian from the IRQ vector at 0xFFFE/0xFFFF. -/
theorem irq_semantics :
    (∀ s : State, s.status.testBit 2 = true → irq s = s) ∧
    (∀ s : State, s.status.testBit 2 = false → s.sp < 256 → s.pc < 65536 →
      (irq s).status = (s.status &&& 0xEF) ||| 0x04 ∧
      (irq s).pc = (busRead s 0xFFFF <<< 8) + busRead s 0xFFFE ∧
      (irq s).sp = (s.sp + 253) % 256 ∧
      busRead (irq s) (0x100 + s.sp) = s.pc >>> 8 ∧
      busRead (irq s) (0x100 + (s.sp + 255) % 256) = s.pc &&& 0xFF ∧
      busRead (irq s) (0x100 + (s.sp + 254) % 256) = s.status &&& 0xEF ∧
      (irq s).A = s.A ∧ (irq s).X = s.X ∧ (irq s).Y = s.Y) := by
  constructor
  · intro s h
    unfold irq
    rw [ifFlag_INTERRUPT, h]
    simp
  · intro s hI hsp hpc
    unfold irq
    rw [ifFlag_INTERRUPT, hI]
    simp only [Bool.false_eq_true, reduceIte]
    set s1 := withStatus s (setFlag BREAK false s.status) with hs1
    set s2 := stackPush s1 (s1.pc >>> 8 &&& 255) with hs2
    set s3 := stackPush s2 (s2.pc &&& 255) with hs3
    set s4 := stackPush s3 s3.status with hs4
    have ep1 : s1.pc = s.pc := by rw [hs1]; rfl
    have ep2 : s2.pc = s.pc := by rw [hs2, stackPush_pc, ep1]
    have e1 : s1.sp = s.sp := by rw [hs1]; rfl
    have e2 : s2.sp = (s.sp + 255) % 256 := by
      rw [hs2, stackPush_sp, e1]; split_ifs <;> omega
    have e3 : s3.sp = (s.sp + 254) % 256 := by
      rw [hs3, stackPush_sp, e2]; split_ifs <;> omega
    have est3 : s3.status = setFlag BREAK false s.status := by
      rw [hs3, stackPush_status, hs2, stackPush_status, hs1, withStatus_status]
    refine ⟨?_, ?_, ?_, ?_, ?_, ?_, rfl, rfl, rfl⟩
    · simp only [withStatus_status]
      rw [hs4, stackPush_status, est3]
      simp [setFlag, BREAK, INTERRUPT, show (255 ^^^ 16 : Nat) = 239 from rfl]
    · simp only [busRead_pcUpdate, busRead_withStatus]
      have hr : ∀ a : Nat, 0x200 ≤ a % 65536 → busRead s4 a = busRead s a := by
        intro a ha
        rw [hs4, busRead_stackPush_ne _ _ _ (by rw [e3]; omega),
            hs3, busRead_stackPush_ne _ _ _ (by rw [e2]; omega),
            hs2, busRead_stackPush_ne _ _ _ (by rw [e1]; omega),
            hs1, busRead_withStatus]
      rw [hr 0xFFFF (by norm_num), hr 0xFFFE (by norm_num)]
    · simp only [withStatus_sp]
      rw [hs4, stackPush_sp, e3]
      split_ifs <;> omega
    · simp only [busRead_pcUpdate, busRead_withStatus]
      rw [hs4, busRead_stackPush_ne _ _ _ (by rw [e3]; omega),
          hs3, busRead_stackPush_ne _ _ _ (by rw [e2]; omega),
          hs2, busRead_stackPush_eq _ _ _ (by rw [e1]),
          ep1, and255, Nat.shiftRight_eq_div_pow]
      omega
    · simp only [busRead_pcUpdate, busRead_withStatus]
      rw [hs4, busRead_stackPush_ne _ _ _ (by rw [e3]; omega),
          hs3, busRead_stackPush_eq _ _ _ (by rw [e2]),
          ep2, and255]
      omega
    · simp only [busRead_pcUpdate, busRead_withStatus]
      rw [hs4, busRead_stackPush_eq _ _ _ (by rw [e3]), est3]
      have hbv : setFlag BREAK false s.status = s.status &&& 0xEF := by
        simp [setFlag, BREAK, show (255 ^^^ 16 : Nat) = 239 from rfl]
      rw [hbv]
      exact Nat.mod_eq_of_lt (lt_of_le_of_lt Nat.and_le_right (by norm_num))

/-- C9 (witness): `irq_semantics` instantiated at `irqHighState`
(I flag set: the whole state is unchanged) and at `irqLowState` (I flag
clear: PC is loaded from the IRQ vector). -/
theorem irq_semantics_witness :
    irq irqHighState = irqHighState ∧
    (irq irqLowState).pc =
      (busRead irqLowState 0xFFFF <<< 8) + busRead irqLowState 0xFFFE :=
  ⟨irq_semantics.1 irqHighState (by decide),
   (irq_semantics.2 irqLowState (by decide) (by decide) (by decide)).2.1⟩

@[simp] lemma busRead_spUpdate (s : State) (x a : Nat) :
    busRead { s with sp := x } a = busRead s a := rfl

lemma readback (p : Nat) (hp : p < 65536) :
    ((p >>> 8 &&& 255) % 256) <<< 8 ||| ((p &&& 255) % 256) = p := by
  rw [Nat.mod_eq_of_lt (lt_of_le_of_lt Nat.and_le_right (by norm_num)),
      Nat.mod_eq_of_lt (lt_of_le_of_lt Nat.and_le_right (by norm_num)),
      pc_split p hp]

lemma busRead_spPcUpdate (s : State) (x y a : Nat) :
    busRead { s with sp := x, pc := y } a = busRead s a := rfl

lemma stackPop_fst (s : State) :
    (stackPop s).1 = { s with sp := if s.sp = 255 then 0 else s.sp + 1 } := rfl

lemma stackPop_snd (s : State) :
    (stackPop s).2 = busRead s (0x100 + (if s.sp = 255 then 0 else s.sp + 1)) := rfl

lemma Op_JSR_eq (src : Nat) (X : State) :
    Op_JSR src X =
      { stackPush (stackPush { X with pc := (X.pc + 65535) % 65536 }
          (((X.pc + 65535) % 65536) >>> 8 &&& 255)) ((X.pc + 65535) % 65536 &&& 255)
        with pc := src % 65536 } := rfl

set_option maxRecDepth 4000 in
set_option maxHeartbeats 1000000 in
lemma rts_of_jsr (X J : State) (src q : Nat) (hsp : X.sp < 256) (hff : X.sp ≠ 255)
    (hJ : J = Op_JSR src X) :
    (Op_RTS 0 { J with pc := q }).pc = X.pc % 65536 ∧
    (Op_RTS 0 { J with pc := q }).sp = X.sp ∧
    (Op_RTS 0 { J with pc := q }).exited = X.exited := by
  subst hJ
  rw [Op_JSR_eq]
  set X1 := { X with pc := (X.pc + 65535) % 65536 } with hX1
  set v1 := ((X.pc + 65535) % 65536) >>> 8 &&& 255 with hv1
  set P1 := stackPush X1 v1 with hP1
  set v2 := (X.pc + 65535) % 65536 &&& 255 with hv2
  set P2 := stackPush P1 v2 with hP2
  dsimp only
  have e0 : X1.sp = X.sp := by rw [hX1]
  have e1 : P1.sp = (X.sp + 255) % 256 := by
    rw [hP1, stackPush_sp, e0]; split_ifs <;> omega
  have e2 : P2.sp = (X.sp + 254) % 256 := by
    rw [hP2, stackPush_sp, e1]; split_ifs <;> omega
  have ex2 : P2.exited = X.exited := by
    rw [hP2, stackPush_exited, hP1, stackPush_exited, hX1]
  unfold Op_RTS
  simp only [stackPop_fst, stackPop_snd]
  have f1 : (if P2.sp = 255 then 0 else P2.sp + 1) = (X.sp + 255) % 256 := by
    rw [e2]; split_ifs <;> omega
  rw [f1]
  have f2 : (if (X.sp + 255) % 256 = 255 then 0 else (X.sp + 255) % 256 + 1) = X.sp := by
    split_ifs <;> omega
  rw [f2]
  rw [if_neg hff]
  have rhi : busRead P2 (256 + X.sp) = v1 % 256 := by
    rw [hP2, busRead_stackPush_ne _ _ _ (by rw [e1]; omega), hP1,
        busRead_stackPush_eq _ _ _ (by rw [e0])]
  have rlo : busRead P2 (256 + (X.sp + 255) % 256) = v2 % 256 := by
    rw [hP2, busRead_stackPush_eq _ _ _ (by rw [e1])]
  simp only [busRead_spPcUpdate]
  rw [rhi, rlo]
  refine ⟨?_, trivial, ex2⟩
  rw [hv1, hv2, readback _ (by omega)]
  omega

lemma Addr_ABS_eq (Z : State) :
    Addr_ABS Z = ({ Z with pc := ((Z.pc + 1) % 65536 + 1) % 65536 },
      busRead Z Z.pc + (busRead Z ((Z.pc + 1) % 65536) <<< 8)) := rfl

lemma fetch_jsr (Z : State) (h : busRead Z Z.pc = 0x20) :
    (stepInstr Z).1 =
      Op_JSR (Addr_ABS { Z with pc := (Z.pc + 1) % 65536 }).2
        (Addr_ABS { Z with pc := (Z.pc + 1) % 65536 }).1 := by
  unfold stepInstr
  dsimp only
  rw [h]
  rfl

lemma fetch_rts (Z : State) (h : busRead Z Z.pc = 0x60) :
    (stepInstr Z).1 = Op_RTS 0 { Z with pc := (Z.pc + 1) % 65536 } := by
  unfold stepInstr
  dsimp only
  rw [h]
  rfl

/-- C7 (amended): for every CPU state with an 8-bit SP different from
0xFF whose next instruction is JSR and whose JSR target holds an RTS,
the pair returns PC to the byte after the JSR operands
((pc + 3) mod 65536), restores SP to its pre-call value, and leaves the
exited flag unchanged; the concrete program `20 10 03` at 0x0300 with
`A2 07 60` at 0x0310, run from reset, ends with PC = 0x0303, SP = 0xFD
(its pre-call value) and X = 7. -/
theorem jsr_rts_roundtrip :
    (∀ s : State, s.sp < 256 → s.sp ≠ 0xFF → busRead s s.pc = 0x20 →
      busRead (stepInstr s).1 (stepInstr s).1.pc = 0x60 →
      ((stepInstr (stepInstr s).1).1.pc = (s.pc + 3) % 65536 ∧
       (stepInstr (stepInstr s).1).1.sp = s.sp ∧
       (stepInstr (stepInstr s).1).1.exited = s.exited)) ∧
    ((run 15 14 CycleMethod.CYCLE_COUNT (reset jsrStart 0x300) 0).map
        (fun p => (p.1.pc, p.1.sp, p.1.X)) = some (0x0303, 0xFD, 7)) := by
  refine ⟨?_, by decide⟩
  intro s hsp hff h20 h60
  rw [fetch_jsr s h20] at h60 ⊢
  rw [Addr_ABS_eq] at h60 ⊢
  dsimp only at h60 ⊢
  rw [fetch_rts _ h60]
  have H := fun (v q : Nat) =>
    rts_of_jsr { s with pc := (((s.pc + 1) % 65536 + 1) % 65536 + 1) % 65536 }
      _ v q hsp hff rfl
  refine ⟨?_, ?_, ?_⟩
  · rw [(H _ _).1]
    dsimp only
    omega
  · rw [(H _ _).2.1]
  · rw [(H _ _).2.2]

/-- C7 (counterexample): at `jsrCtrState` (SP = 0xFF, same JSR-to-RTS
program) the RTS pops bring SP back to 0xFF, so the emulator takes the
state-dump-and-exit path: the exited flag becomes true and PC never
reaches the return address — refuting the original for-every-state
claim. -/
theorem jsr_rts_exits_at_top_of_stack :
    jsrCtrState.sp = 0xFF ∧
    busRead jsrCtrState jsrCtrState.pc = 0x20 ∧
    busRead (stepInstr jsrCtrState).1 (stepInstr jsrCtrState).1.pc = 0x60 ∧
    (stepInstr (stepInstr jsrCtrState).1).1.exited = true ∧
    jsrCtrState.exited = false ∧
    (stepInstr (stepInstr jsrCtrState).1).1.pc ≠
      (jsrCtrState.pc + 3) % 65536 := by decide

/-- C7 (witness): `jsr_rts_roundtrip` instantiated at `jsrRtsState`
(SP = 0xFD, JSR $0310 at 0x0300, RTS at 0x0310). -/
theorem jsr_rts_roundtrip_witness :
    jsrRtsState.sp < 256 ∧ jsrRtsState.sp ≠ 0xFF ∧
    busRead jsrRtsState jsrRtsState.pc = 0x20 ∧
    busRead (stepInstr jsrRtsState).1 (stepInstr jsrRtsState).1.pc = 0x60 ∧
    (stepInstr (stepInstr jsrRtsState).1).1.pc = (jsrRtsState.pc + 3) % 65536 ∧
    (stepInstr (stepInstr jsrRtsState).1).1.sp = jsrRtsState.sp :=
  ⟨by decide, by decide, by decide, by decide,
   (jsr_rts_roundtrip.1 jsrRtsState (by decide) (by decide) (by decide) (by decide)).1,
   (jsr_rts_roundtrip.1 jsrRtsState (by decide) (by decide) (by decide) (by decide)).2.1⟩

/-- C6: from reset with the reset vector pre-seeded to 0x0300 and
memory 0x0300..0x030F filled with NOP (0xEA), running with budget 30 in
cycle-count mode terminates with PC = 0x030F and adds exactly 30 to the
caller-owned cumulative cycle counter, whatever its starting value. -/
theorem reset_nop_run_30 (c0 : Nat) :
    (run 31 30 CycleMethod.CYCLE_COUNT (reset nopStart 0x300) c0).map
        (fun p => (p.1.pc, p.2)) = some (0x030F, c0 + 30) := by
  rw [run_shift]
  have h : (run 31 30 CycleMethod.CYCLE_COUNT (reset nopStart 0x300) 0).map
      (fun p => (p.1.pc, p.2)) = some (0x030F, 30) := by decide
  cases hr : run 31 30 CycleMethod.CYCLE_COUNT (reset nopStart 0x300) 0 with
  | none => rw [hr] at h; simp at h
  | some p =>
      rw [hr] at h
      simp only [Option.map_some'] at h ⊢
      simp only [Option.some.injEq, Prod.mk.injEq] at h
      simp [h.1, h.2]

/-- C6 (witness): `reset_nop_run_30` instantiated at counter 5. -/
theorem reset_nop_run_30_witness :
    (run 31 30 CycleMethod.CYCLE_COUNT (reset nopStart 0x300) 5).map
        (fun p => (p.1.pc, p.2)) = some (0x030F, 5 + 30) :=
  reset_nop_run_30 5

/-- C2 (witness): `php_plp_roundtrip` instantiated at `phpState`
(status 0, SP = 0xFD): the B bit is 0 before PHP;PLP and 1 afterwards,
while the C bit round-trips. -/
theorem php_plp_roundtrip_witness :
    phpState.status < 256 ∧ phpState.sp < 256 ∧
    (Op_PLP 0 (Op_PHP 0 phpState)).status.testBit 4 = true ∧
    phpState.status.testBit 4 = false ∧
    (Op_PLP 0 (Op_PHP 0 phpState)).status.testBit 0 = phpState.status.testBit 0 :=
  ⟨by decide, by decide,
   (php_plp_roundtrip phpState (by decide) (by decide)).2.2.2.2.2.2.2,
   by decide,
   (php_plp_roundtrip phpState (by decide) (by decide)).1⟩

end M6502
